import Mathlib

set_option autoImplicit false

/-!
Verification of the centy-installer repository: a shallow embedding of the
shell installer (src/install.sh, the second and current script version in
that file), the Node installer (src/scripts/install.js) and the npm bin
wrapper, together with proofs of the specified properties about them.
-/

namespace CentyInstaller

/-! ## Version normalization (install.sh, install_binary lines 622-630)

The script first forces a leading v marker onto the version used in URLs
(case "$version" in v*) ;; *) version="v${version}" ;; esac) and then
computes the display/path form by deleting one leading v
(sed with the expression s/^v//). -/

/-- Test for a leading v marker, as the shell case pattern v* does. -/
def startsWithV (s : String) : Bool :=
  match s.data with
  | c :: _ => c == 'v'
  | [] => false

/-- Force a leading v marker onto the version used for URL construction. -/
def ensure_v (s : String) : String :=
  if startsWithV s then s else "v" ++ s

/-- Delete one leading v marker, as the sed substitution with s/^v// does:
sed replaces only the first match of the anchored pattern. -/
def strip_v (s : String) : String :=
  match s.data with
  | c :: rest => if c = 'v' then String.mk rest else s
  | [] => s

/-- The composite normalization applied to the raw version: the URL form
gets the forced marker, the display form is that string with one leading
marker deleted. -/
def normalizeVersion (s : String) : String :=
  strip_v (ensure_v s)

/-! ## The per-binary loop and exit code of main (install.sh lines 802-850) -/

/-- The loop of main (lines 824-833): every listed binary is attempted via
install_binary inside an if condition, and appended to the installed or the
failed accumulator according to the outcome of its own attempt. -/
def mainLoop (attempt : String → Bool) : List String → List String × List String
  | [] => ([], [])
  | b :: bs =>
      let r := mainLoop attempt bs
      if attempt b then (b :: r.1, r.2) else (r.1, b :: r.2)

/-- Exit code of the whole run: check_requirements (lines 515-530) exits 1
when neither curl nor wget is found, or when tar is missing; afterwards main
exits 1 exactly when the failed accumulator is non-empty (lines 841-849),
and the script ends with status 0 otherwise. -/
def mainExit (curl wget tar : Bool) (attempt : String → Bool)
    (binaries : List String) : Nat :=
  if curl = false ∧ wget = false then 1
  else if tar = false then 1
  else if (mainLoop attempt binaries).2 = [] then 0 else 1

/-- The two accumulators of the loop are exactly the filters of the binary
list by the per-binary outcome. -/
theorem mainLoop_spec (attempt : String → Bool) (bins : List String) :
    mainLoop attempt bins =
      (bins.filter (fun b => attempt b), bins.filter (fun b => !attempt b)) := by
  induction bins with
  | nil => rfl
  | cons b bs ih =>
      by_cases h : attempt b = true <;>
        simp [mainLoop, ih, List.filter_cons, h]

/-! ## Theorems for the claims on normalization and the main loop -/

/-- C5 (counterexample): version normalization is not idempotent. On the
raw version vv1.0 a first normalization yields v1.0 and a second one yields
1.0, so normalizing an already-normalized version can change it again. -/
theorem c5_counterexample :
    normalizeVersion (normalizeVersion "vv1.0") ≠ normalizeVersion "vv1.0" := by
  decide

/-- C5 (amended): normalization leaves a version without a leading marker
unchanged, removes exactly one marker character from a version with a
leading marker (the raw version is the marker followed by the normalized
version), and is idempotent exactly on those inputs whose normalized form
carries no further leading marker. -/
theorem c5_normalize_amended (s : String) :
    (startsWithV s = false → normalizeVersion s = s) ∧
    (startsWithV s = true → s = "v" ++ normalizeVersion s) ∧
    (startsWithV (normalizeVersion s) = false →
      normalizeVersion (normalizeVersion s) = normalizeVersion s) := by
  obtain ⟨d⟩ := s
  refine ⟨?_, ?_, ?_⟩
  · intro h
    cases d with
    | nil => rfl
    | cons c cs =>
        have hc : (c == 'v') = false := by simpa [startsWithV] using h
        have hc' : ¬ c = 'v' := by simpa using hc
        simp [normalizeVersion, ensure_v, startsWithV, hc, strip_v]
  · intro h
    cases d with
    | nil => simp [startsWithV] at h
    | cons c cs =>
        have hc : c = 'v' := by simpa [startsWithV] using h
        subst hc
        simp [normalizeVersion, ensure_v, startsWithV, strip_v]
        rfl
  · intro h
    generalize hn : normalizeVersion (String.mk d) = t at h ⊢
    obtain ⟨e⟩ := t
    cases e with
    | nil => rfl
    | cons c cs =>
        have hc : (c == 'v') = false := by simpa [startsWithV] using h
        have hc' : ¬ c = 'v' := by simpa using hc
        simp [normalizeVersion, ensure_v, startsWithV, hc, strip_v]

/-- C5 (witness): the amended statement evaluated at the raw version
v1.2.3, whose normalized form is 1.2.3. -/
theorem c5_witness : "v1.2.3" = "v" ++ normalizeVersion "v1.2.3" :=
  (c5_normalize_amended "v1.2.3").2.1 (by decide)

/-- C2: the process exit status is 0 when every requested binary installed
successfully (the requirement checks having passed so that the loop ran at
all), 1 when at least one requested binary failed even if others succeeded,
and 1 when neither curl nor wget is available at startup. -/
theorem c2_exit_codes (curl wget tar : Bool) (attempt : String → Bool)
    (bins : List String) :
    ((curl = true ∨ wget = true) → tar = true →
      (∀ b ∈ bins, attempt b = true) → mainExit curl wget tar attempt bins = 0) ∧
    ((curl = true ∨ wget = true) → tar = true →
      (∃ b ∈ bins, attempt b = false) → mainExit curl wget tar attempt bins = 1) ∧
    (curl = false → wget = false → mainExit curl wget tar attempt bins = 1) := by
  refine ⟨?_, ?_, ?_⟩
  · intro htool htar hall
    have hfail : (mainLoop attempt bins).2 = [] := by
      simp [mainLoop_spec, List.filter_eq_nil_iff]
      intro b hb
      simp [hall b hb]
    have hcurl : ¬ (curl = false ∧ wget = false) := by
      rcases htool with h | h <;> simp [h]
    simp [mainExit, hcurl, htar, hfail]
  · intro htool htar hsome
    obtain ⟨b, hb, hfb⟩ := hsome
    have hfail : (mainLoop attempt bins).2 ≠ [] := by
      simp [mainLoop_spec, List.filter_eq_nil_iff]
      exact ⟨b, hb, by simp [hfb]⟩
    have hcurl : ¬ (curl = false ∧ wget = false) := by
      rcases htool with h | h <;> simp [h]
    simp [mainExit, hcurl, htar, hfail]
  · intro hc hw
    simp [mainExit, hc, hw]

/-- C2 (witness): concrete runs. With curl present and both binaries
succeeding the exit code is 0; with one of two binaries failing it is 1;
with neither curl nor wget it is 1. -/
theorem c2_witness :
    mainExit true false true (fun _ => true) ["centy-daemon", "centy-tui"] = 0 ∧
    mainExit true false true (fun b => b == "centy-daemon") ["centy-daemon", "centy-tui"] = 1 ∧
    mainExit false false true (fun _ => true) ["centy-daemon"] = 1 := by
  refine ⟨?_, ?_, ?_⟩
  · exact (c2_exit_codes true false true (fun _ => true) ["centy-daemon", "centy-tui"]).1
      (Or.inl rfl) rfl (by decide)
  · exact (c2_exit_codes true false true (fun b => b == "centy-daemon")
      ["centy-daemon", "centy-tui"]).2.1 (Or.inl rfl) rfl ⟨"centy-tui", by decide, by decide⟩
  · exact (c2_exit_codes false false true (fun _ => true) ["centy-daemon"]).2.2 rfl rfl

/-- C3: every requested binary is attempted and classified by its own
outcome; the installed and failed accumulators are exactly the filters of
the request list, so the failure of one binary never prevents a later
binary from being attempted and recorded. -/
theorem c3_partial_failure_isolation (attempt : String → Bool) (bins : List String) :
    (mainLoop attempt bins).1 = bins.filter (fun b => attempt b) ∧
    (mainLoop attempt bins).2 = bins.filter (fun b => !attempt b) ∧
    ∀ b ∈ bins,
      (attempt b = true ∧ b ∈ (mainLoop attempt bins).1) ∨
      (attempt b = false ∧ b ∈ (mainLoop attempt bins).2) := by
  refine ⟨by simp [mainLoop_spec], by simp [mainLoop_spec], ?_⟩
  intro b hb
  by_cases h : attempt b = true
  · exact Or.inl ⟨h, by simp [mainLoop_spec, List.mem_filter, hb, h]⟩
  · have h' : attempt b = false := by simpa using h
    exact Or.inr ⟨h', by simp [mainLoop_spec, List.mem_filter, hb, h']⟩

/-- C3 (witness): with the first of two binaries failing, the second is
still attempted and lands in the installed accumulator. -/
theorem c3_witness :
    (mainLoop (fun b => b == "b") ["a", "b"]).1 = ["b"] ∧
    (mainLoop (fun b => b == "b") ["a", "b"]).2 = ["a"] := by
  have h := c3_partial_failure_isolation (fun b => b == "b") ["a", "b"]
  exact ⟨h.1.trans (by decide), h.2.1.trans (by decide)⟩

/-! ## Artifact fetch fallback (install.sh, install_binary lines 641-690)

The script builds up to three download URLs and tries them in order with
try_download, which swallows transport errors and reports success as its
exit status. The downloaded flag short-circuits later attempts; the third
URL is built only when the legacy OS string is windows. When the flag is
still false after all attempts the function fails, having printed one
Trying line per attempted URL as the diagnostic list. -/

/-- A candidate download with its payload interpretation: true means the
payload is an archive to extract, false means a raw executable. -/
structure FetchAttempt where
  url : String
  isArchive : Bool
deriving DecidableEq

/-- Release download URL for a file of a binary at a version (lines 653,
665, 677 share this shape). -/
def downloadUrl (binary version fileName : String) : String :=
  "https://github.com/centy-io/" ++ binary ++ "/releases/download/" ++
    version ++ "/" ++ fileName

/-- URL format 1 (line 653): archive with version, new target triple. -/
def url1 (binary version arch os ext : String) : String :=
  downloadUrl binary version
    (binary ++ "-" ++ version ++ "-" ++ arch ++ "-" ++ os ++ "." ++ ext)

/-- URL format 2 (line 665): legacy raw binary, legacy OS string first. -/
def url2 (binary version osLegacy arch : String) : String :=
  downloadUrl binary version (binary ++ "-" ++ osLegacy ++ "-" ++ arch)

/-- URL format 3 (line 677): legacy raw binary with the exe extension. -/
def url3 (binary version osLegacy arch : String) : String :=
  downloadUrl binary version (binary ++ "-" ++ osLegacy ++ "-" ++ arch ++ ".exe")

/-- Outcome of the download fallback: whether a download succeeded, how its
payload is interpreted, and the URLs attempted in order (each printed as a
Trying line by the script). -/
structure FetchOutcome where
  downloaded : Bool
  isArchive : Bool
  tried : List String
deriving DecidableEq

/-- The fallback chain exactly as written in install_binary (lines 647-690):
sequential attempts guarded by the downloaded flag, the third attempt
guarded additionally by the legacy OS being windows. The parameter ok is
the success of try_download on a given URL. -/
def fetchArtifact (ok : String → Bool) (binary version arch os osLegacy ext : String) :
    FetchOutcome :=
  let u1 := url1 binary version arch os ext
  if ok u1 then ⟨true, true, [u1]⟩
  else
    let u2 := url2 binary version osLegacy arch
    if ok u2 then ⟨true, false, [u1, u2]⟩
    else if osLegacy = "windows" then
      let u3 := url3 binary version osLegacy arch
      if ok u3 then ⟨true, false, [u1, u2, u3]⟩
      else ⟨false, false, [u1, u2, u3]⟩
    else ⟨false, false, [u1, u2]⟩

/-- The fixed priority list of candidates described by the specification:
archive form first, then the legacy raw-binary form, then, only for the
legacy OS windows, the raw-binary form with the exe extension. -/
def candidateList (binary version arch os osLegacy ext : String) : List FetchAttempt :=
  [⟨url1 binary version arch os ext, true⟩,
   ⟨url2 binary version osLegacy arch, false⟩] ++
    (if osLegacy = "windows" then [⟨url3 binary version osLegacy arch, false⟩] else [])

/-- Reference fetch following the words of the specification: try the
candidates in list order, stop at the first success, and when every attempt
fails report failure carrying the full list of URLs tried. -/
def specFetchGo (ok : String → Bool) (tried : List String) :
    List FetchAttempt → FetchOutcome
  | [] => ⟨false, false, tried⟩
  | c :: rest =>
      if ok c.url then ⟨true, c.isArchive, tried ++ [c.url]⟩
      else specFetchGo ok (tried ++ [c.url]) rest

/-- Reference fetch over a candidate list, starting from an empty trace. -/
def specFetch (ok : String → Bool) (cands : List FetchAttempt) : FetchOutcome :=
  specFetchGo ok [] cands

/-- C1: the download fallback of install_binary refines the specified
priority scheme exactly: it tries the candidate URLs in the fixed order of
candidateList, stops at the first successful download (interpreting only
the first format as an archive), attempts the exe format only when the
legacy OS is windows, and on total failure reports a failure whose
diagnostic trace lists every URL tried. -/
theorem c1_fetch_priority_order (ok : String → Bool)
    (binary version arch os osLegacy ext : String) :
    fetchArtifact ok binary version arch os osLegacy ext =
      specFetch ok (candidateList binary version arch os osLegacy ext) := by
  by_cases h1 : ok (url1 binary version arch os ext) = true
  · simp [fetchArtifact, candidateList, specFetch, specFetchGo, h1]
  · by_cases h2 : ok (url2 binary version osLegacy arch) = true
    · by_cases hw : osLegacy = "windows" <;>
        simp [fetchArtifact, candidateList, specFetch, specFetchGo, h1, h2, hw]
    · by_cases hw : osLegacy = "windows"
      · by_cases h3 : ok (url3 binary version osLegacy arch) = true <;>
          simp [fetchArtifact, candidateList, specFetch, specFetchGo, h1, h2, hw, h3]
      · simp [fetchArtifact, candidateList, specFetch, specFetchGo, h1, h2, hw]

/-! ## Filesystem model for the publication step (install.sh lines 692-725)

After a successful download the staged binary is moved into the versioned
install path, marked executable, and only then is the bin symlink replaced.
Regular files are an association list from path to the executable bit, and
symlinks an association list from link path to target path. -/

/-- Look up a path in an association list keyed by path. -/
def lookupA {β : Type} : List (String × β) → String → Option β
  | [], _ => none
  | e :: t, p => if e.1 = p then some e.2 else lookupA t p

/-- Remove every entry at a path from an association list. -/
def removeA {β : Type} : List (String × β) → String → List (String × β)
  | [], _ => []
  | e :: t, p => if e.1 = p then removeA t p else e :: removeA t p

/-- Set the entry at a path in an association list. -/
def setA {β : Type} (l : List (String × β)) (p : String) (v : β) : List (String × β) :=
  (p, v) :: removeA l p

theorem lookupA_removeA {β : Type} (l : List (String × β)) (p q : String) :
    lookupA (removeA l p) q = if q = p then none else lookupA l q := by
  induction l with
  | nil => simp [lookupA, removeA]
  | cons e t ih =>
      by_cases h1 : e.1 = p
      · by_cases h2 : q = p
        · simp_all [lookupA, removeA]
        · have h2' : ¬ p = q := fun hpq => h2 hpq.symm
          simp_all [lookupA, removeA]
      · by_cases h2 : e.1 = q
        · have hqp : ¬ q = p := by
            intro hq
            exact h1 (h2.trans hq)
          simp_all [lookupA, removeA]
        · simp_all [lookupA, removeA]

theorem lookupA_setA {β : Type} (l : List (String × β)) (p q : String) (v : β) :
    lookupA (setA l p v) q = if q = p then some v else lookupA l q := by
  by_cases h : q = p
  · simp [setA, lookupA, lookupA_removeA, h]
  · simp [setA, lookupA, lookupA_removeA, h]
    intro h'
    exact absurd h'.symm h

/-- The filesystem state touched by the publication step: regular files
with their executable bit, and symlinks with their targets. -/
structure FS where
  files : List (String × Bool)
  links : List (String × String)
deriving DecidableEq

/-- The executable bit of the regular file at a path, when one exists. -/
def FS.file? (s : FS) (p : String) : Option Bool :=
  lookupA s.files p

/-- The target of the symlink at a path, when one exists. -/
def FS.link? (s : FS) (p : String) : Option String :=
  lookupA s.links p

/-- mv src dst on a regular file (lines 702, 706, 714): the file leaves the
source path and appears at the destination with its mode preserved. -/
def FS.mvFile (s : FS) (src dst : String) : FS :=
  match lookupA s.files src with
  | some x => { s with files := setA (removeA s.files src) dst x }
  | none => s

/-- chmod +x on the installed binary (line 720). -/
def FS.chmodX (s : FS) (p : String) : FS :=
  match lookupA s.files p with
  | some _ => { s with files := setA s.files p true }
  | none => s

/-- rm -f on the symlink path (line 724): whatever sits at the path, file
or symlink, is removed; a missing path is not an error. -/
def FS.rmF (s : FS) (p : String) : FS :=
  { files := removeA s.files p, links := removeA s.links p }

/-- ln -s target path (line 725), run after rm -f cleared the path. -/
def FS.lnS (s : FS) (target p : String) : FS :=
  { s with links := setA s.links p target }

/-- The publication tail of install_binary (lines 712-725): move the staged
binary into the versioned path, mark it executable, then remove any old
symlink and publish a fresh one pointing at the versioned path. -/
def publishBinary (s : FS) (stagedPath binaryPath symlinkPath : String) : FS :=
  (((s.mvFile stagedPath binaryPath).chmodX binaryPath).rmF symlinkPath).lnS
    binaryPath symlinkPath

/-- C4: whenever the publication step runs with the staged binary present,
the final state has the bin symlink pointing at the versioned binary path,
and the file at that path exists and carries the executable bit; the
symlink is only created after the move and the chmod, so every symlink the
installer creates points at an existing executable file. The bin directory
and the versions directory are distinct, so the symlink path never equals
the versioned binary path. -/
theorem c4_symlink_target_ready (s : FS) (stagedPath binaryPath symlinkPath : String)
    (hstaged : (s.file? stagedPath).isSome = true)
    (hne : symlinkPath ≠ binaryPath) :
    ((publishBinary s stagedPath binaryPath symlinkPath).link? symlinkPath =
        some binaryPath) ∧
    ((publishBinary s stagedPath binaryPath symlinkPath).file? binaryPath =
        some true) := by
  obtain ⟨x, hx⟩ := Option.isSome_iff_exists.mp hstaged
  have hx' : lookupA s.files stagedPath = some x := hx
  have h1 : ((s.mvFile stagedPath binaryPath).file? binaryPath).isSome = true := by
    simp [FS.mvFile, hx', FS.file?, lookupA_setA]
  obtain ⟨y, hy⟩ := Option.isSome_iff_exists.mp h1
  have h2 : ((s.mvFile stagedPath binaryPath).chmodX binaryPath).file? binaryPath =
      some true := by
    have hy' : lookupA (s.mvFile stagedPath binaryPath).files binaryPath = some y := hy
    simp [FS.chmodX, hy', FS.file?, lookupA_setA]
  constructor
  · simp [publishBinary, FS.lnS, FS.rmF, FS.link?, lookupA_setA]
  · have hne' : binaryPath ≠ symlinkPath := Ne.symm hne
    have h3 : (((s.mvFile stagedPath binaryPath).chmodX binaryPath).rmF
        symlinkPath).file? binaryPath = some true := by
      simpa [FS.rmF, FS.file?, lookupA_removeA, hne'] using h2
    simpa [publishBinary, FS.lnS, FS.file?] using h3

/-- C4 (witness): publishing from a state holding only the staged download
produces a symlink at the bin path whose target is the versioned executable
file. -/
theorem c4_witness :
    ((publishBinary ⟨[("/tmp/x/centy-daemon", false)], []⟩ "/tmp/x/centy-daemon"
        "/root/.centy/versions/centy-daemon/0.1.6/centy-daemon"
        "/root/.centy/bin/centy-daemon").link? "/root/.centy/bin/centy-daemon" =
      some "/root/.centy/versions/centy-daemon/0.1.6/centy-daemon") ∧
    ((publishBinary ⟨[("/tmp/x/centy-daemon", false)], []⟩ "/tmp/x/centy-daemon"
        "/root/.centy/versions/centy-daemon/0.1.6/centy-daemon"
        "/root/.centy/bin/centy-daemon").file?
        "/root/.centy/versions/centy-daemon/0.1.6/centy-daemon" = some true) :=
  c4_symlink_target_ready _ _ _ _ (by decide) (by decide)

/-! ## Locating the binary in the extracted archive

The current install_binary (install.sh lines 700-711) checks for a file
directly at the extraction root and otherwise takes the first file named
like the binary that the recursive find prints. The earlier script version
kept in the same file (lines 244-257) had an additional middle check for a
same-named subdirectory; the current version dropped it. The extracted
content is modelled as the list of file paths under the temporary
directory in find traversal order. -/

/-- Final path component, as matched by find with the name test. -/
def baseNameAux (cur : List Char) : List Char → List Char
  | [] => cur
  | c :: t => if c = '/' then baseNameAux [] t else baseNameAux (cur ++ [c]) t

/-- Final path component of a path string. -/
def baseName (p : String) : String :=
  String.mk (baseNameAux [] p.data)

/-- Binary location in the current install_binary (lines 700-711): the file
at the extraction root when present, otherwise the first file of the find
traversal whose name is the binary name; none means the failure branch with
the could-not-find error. -/
def locateBinary (found : List String) (tmpDir binary : String) : Option String :=
  if (tmpDir ++ "/" ++ binary) ∈ found then some (tmpDir ++ "/" ++ binary)
  else found.find? (fun p => baseName p == binary)

/-- Binary location in the earlier script version kept in the same file
(lines 244-257): between the root check and the recursive find it prefers a
file inside a same-named subdirectory. -/
def locateBinary_v1 (found : List String) (tmpDir binary : String) : Option String :=
  if (tmpDir ++ "/" ++ binary) ∈ found then some (tmpDir ++ "/" ++ binary)
  else if (tmpDir ++ "/" ++ binary ++ "/" ++ binary) ∈ found then
    some (tmpDir ++ "/" ++ binary ++ "/" ++ binary)
  else found.find? (fun p => baseName p == binary)

/-- C6 (counterexample): the current locate step does not prefer a
same-named subdirectory over the recursive search. With no file at the
extraction root, a file at /t/centy/centy in the same-named subdirectory,
and a file /t/aux/centy visited earlier by the traversal, the current code
picks /t/aux/centy, not the same-named-subdirectory match that the claimed
order (and the earlier script version) would pick. -/
theorem c6_counterexample :
    ("/t" ++ "/" ++ "centy") ∉ ["/t/aux/centy", "/t/centy/centy"] ∧
    "/t/centy/centy" ∈ ["/t/aux/centy", "/t/centy/centy"] ∧
    locateBinary ["/t/aux/centy", "/t/centy/centy"] "/t" "centy" =
      some "/t/aux/centy" ∧
    locateBinary ["/t/aux/centy", "/t/centy/centy"] "/t" "centy" ≠
      some "/t/centy/centy" ∧
    locateBinary_v1 ["/t/aux/centy", "/t/centy/centy"] "/t" "centy" =
      some "/t/centy/centy" := by
  decide

/-- C6 (amended): the current locate step checks, in order, a file at the
extraction root and then the recursive search returning the first file of
the traversal exactly named like the binary (a same-named subdirectory is
reached only through that search, without preference over other matches);
the failure branch is taken only when no file in the archive carries the
binary name. -/
theorem c6_locate_order (found : List String) (tmpDir binary : String) :
    ((tmpDir ++ "/" ++ binary) ∈ found →
      locateBinary found tmpDir binary = some (tmpDir ++ "/" ++ binary)) ∧
    ((tmpDir ++ "/" ++ binary) ∉ found →
      locateBinary found tmpDir binary =
        found.find? (fun p => baseName p == binary)) ∧
    (locateBinary found tmpDir binary = none →
      ∀ p ∈ found, baseName p ≠ binary) := by
  refine ⟨?_, ?_, ?_⟩
  · intro h
    simp [locateBinary, h]
  · intro h
    simp [locateBinary, h]
  · intro h p hp
    by_cases hd : (tmpDir ++ "/" ++ binary) ∈ found
    · simp [locateBinary, hd] at h
    · simp [locateBinary, hd, List.find?_eq_none] at h
      simpa using h p hp

/-- C6 (witness): with a single file inside an unrelated subdirectory the
current locate step returns exactly what the recursive search returns. -/
theorem c6_witness :
    locateBinary ["/t/sub/centy"] "/t" "centy" =
      List.find? (fun p => baseName p == "centy") ["/t/sub/centy"] :=
  (c6_locate_order ["/t/sub/centy"] "/t" "centy").2.1 (by decide)

/-! ## PATH configuration (install.sh, setup_path lines 733-780)

The function returns early when the bin directory already occurs in the
colon-delimited PATH value; otherwise it appends an export line to the
selected shell configuration file unless the file content already mentions
the bin directory, and creates the file when it is absent. The grep test
against the directory string is modelled as literal substring containment,
which is what it computes on directory strings free of pattern
metacharacters such as the default install prefix. -/

/-- Substring containment on character lists: the needle occurs at the
head, or somewhere in the tail. -/
def containsSub (needle : List Char) : List Char → Bool
  | [] => needle.isEmpty
  | c :: t => needle.isPrefixOf (c :: t) || containsSub needle t

/-- Substring containment on strings, needle second. -/
def strContains (hay needle : String) : Bool :=
  containsSub needle.data hay.data

theorem data_append (a b : String) : (a ++ b).data = a.data ++ b.data := rfl

theorem isPrefixOf_append_self (n b : List Char) : n.isPrefixOf (n ++ b) = true := by
  induction n with
  | nil => simp [List.isPrefixOf]
  | cons c t ih => simp [List.isPrefixOf, ih]

theorem containsSub_self_append (n b : List Char) : containsSub n (n ++ b) = true := by
  cases n with
  | nil =>
      cases b with
      | nil => rfl
      | cons c t => simp [containsSub]
  | cons c t => simp [containsSub, isPrefixOf_append_self]

theorem containsSub_append_right (n a b : List Char) (h : containsSub n b = true) :
    containsSub n (a ++ b) = true := by
  induction a with
  | nil => simpa using h
  | cons c t ih => simp [containsSub, ih]

theorem containsSub_mid (n a b : List Char) : containsSub n (a ++ (n ++ b)) = true :=
  containsSub_append_right n a (n ++ b) (containsSub_self_append n b)

/-- The export line written to the configuration file (line 765). -/
def path_export_line (binDir : String) : String :=
  "export PATH=\"${PATH}:" ++ binDir ++ "\""

/-- The file update of setup_path (lines 767-777): an existing file gains
the comment and export lines only when its content does not already mention
the bin directory; an absent file is created holding the export line. -/
def setup_path_file (binDir : String) (contents : Option String) : Option String :=
  match contents with
  | some c =>
      if strContains c binDir then some c
      else some (c ++ "\n" ++ "# Added by Centy installer" ++ "\n" ++
        path_export_line binDir ++ "\n")
  | none => some (path_export_line binDir ++ "\n")

/-- setup_path including the PATH pre-check (lines 735-739): when the bin
directory already occurs as a colon-delimited segment of PATH nothing is
touched. -/
def setup_path (pathVar binDir : String) (contents : Option String) : Option String :=
  if strContains (":" ++ pathVar ++ ":") (":" ++ binDir ++ ":") then contents
  else setup_path_file binDir contents

theorem setup_path_file_idem (binDir : String) (contents : Option String) :
    setup_path_file binDir (setup_path_file binDir contents) =
      setup_path_file binDir contents := by
  cases contents with
  | none =>
      have h : strContains (path_export_line binDir ++ "\n") binDir = true := by
        show containsSub binDir.data (path_export_line binDir ++ "\n").data = true
        simp only [path_export_line, data_append, List.append_assoc]
        exact containsSub_mid _ _ _
      simp [setup_path_file, h]
  | some c =>
      by_cases h : strContains c binDir = true
      · simp [setup_path_file, h]
      · have h2 : strContains (c ++ "\n" ++ "# Added by Centy installer" ++ "\n" ++
            path_export_line binDir ++ "\n") binDir = true := by
          show containsSub binDir.data _ = true
          simp only [path_export_line, data_append, List.append_assoc]
          exact containsSub_append_right _ _ _ (containsSub_append_right _ _ _
            (containsSub_append_right _ _ _ (containsSub_append_right _ _ _
              (containsSub_mid _ _ _))))
        simp [setup_path_file, h, h2]

/-- C7: the PATH configuration step is idempotent on the configuration
file: a second run on the file produced by the first run leaves it
unchanged; the export line is appended to an existing file only when the
bin directory string is absent from its content, and an absent file is
created holding the export line. -/
theorem c7_idempotent_rerun (pathVar binDir : String) (contents : Option String) :
    (setup_path pathVar binDir (setup_path pathVar binDir contents) =
      setup_path pathVar binDir contents) ∧
    (∀ c : String, contents = some c → strContains c binDir = true →
      setup_path_file binDir contents = some c) ∧
    (contents = none →
      setup_path_file binDir contents = some (path_export_line binDir ++ "\n")) := by
  refine ⟨?_, ?_, ?_⟩
  · by_cases hp : strContains (":" ++ pathVar ++ ":") (":" ++ binDir ++ ":") = true
    · simp [setup_path, hp]
    · simp [setup_path, hp, setup_path_file_idem]
  · intro c hc h
    subst hc
    simp [setup_path_file, h]
  · intro h
    subst h
    rfl

/-- C7 (witness): a missing configuration file is created holding exactly
the export line, and a file already holding it is left unchanged by the
next run. -/
theorem c7_witness :
    setup_path_file "/root/.centy/bin" none =
      some (path_export_line "/root/.centy/bin" ++ "\n") :=
  (c7_idempotent_rerun "/usr/bin" "/root/.centy/bin" none).2.2 rfl

/-! ## Temporary directory cleanup (install.sh lines 637-639)

Each call of install_binary creates a temporary directory with mktemp and
installs the single script-wide EXIT trap with the removal command for that
directory, the directory name being expanded at trap-setting time. A POSIX
shell runs the EXIT trap once, when the whole script exits, and a later
trap command replaces the earlier one, so only the most recently installed
removal command ever runs. -/

/-- The script-level state relevant to temporary directory cleanup: the
single EXIT trap slot and the temporary directories currently existing. -/
structure ShellState where
  trapCmd : Option String
  existingTmpDirs : List String
deriving DecidableEq

/-- mktemp plus the trap command of one install_binary attempt (lines
638-639): the new directory exists and the EXIT trap slot is overwritten
with the removal command for this directory. Nothing is removed when the
attempt itself finishes. -/
def attemptTempSetup (s : ShellState) (tmp : String) : ShellState :=
  { trapCmd := some tmp, existingTmpDirs := s.existingTmpDirs ++ [tmp] }

/-- Script exit: the EXIT trap runs once and removes only the directory
named in the surviving trap command. -/
def runExitTrap (s : ShellState) : ShellState :=
  match s.trapCmd with
  | some t => { trapCmd := none, existingTmpDirs := s.existingTmpDirs.erase t }
  | none => s

/-- The temporary directories over a whole run: one attempt per binary in
order, then the process exits and the trap runs. -/
def scriptTempDirs (tmps : List String) : ShellState :=
  runExitTrap (tmps.foldl attemptTempSetup ⟨none, []⟩)

/-- C8 (code bug): with two per-binary attempts creating /tmp/a and then
/tmp/b, both directories still exist after both attempts have finished
(nothing is removed on the exit path of an attempt), and after the whole
script exits the surviving trap removes only /tmp/b, so the first attempt
never has its temporary directory removed at all. This contradicts the
per-attempt guaranteed-cleanup behaviour the specification states. -/
theorem c8_temp_dir_leak :
    ((["/tmp/a", "/tmp/b"].foldl attemptTempSetup ⟨none, []⟩).existingTmpDirs =
      ["/tmp/a", "/tmp/b"]) ∧
    (scriptTempDirs ["/tmp/a", "/tmp/b"]).existingTmpDirs = ["/tmp/a"] := by
  decide

/-! ## Redirect handling in the Node installer (scripts/install.js lines 48-66)

httpsGet recursively re-issues the request at the location header whenever
the status code is 301 or 302, with no depth counter of any kind; any other
non-200 status is an error and a 200 status resolves with the body. The
recursion is embedded with a fuel parameter: a none result means the
recursion has not terminated within the given fuel. -/

/-- The parts of the HTTP response that httpsGet inspects. -/
structure HttpResp where
  statusCode : Nat
  location : String
  body : String
deriving DecidableEq

/-- Result of a fetch: the body on a 200 status, or the reported error for
any other terminal status. -/
inductive FetchResultJs where
  | ok (body : String)
  | httpError (code : Nat)
deriving DecidableEq

/-- httpsGet (scripts/install.js lines 48-66) over a network function from
URL to response, with fuel bounding the recursion depth of the model. -/
def httpsGet (net : String → HttpResp) : Nat → String → Option FetchResultJs
  | 0, _ => none
  | fuel + 1, url =>
      let r := net url
      if r.statusCode = 302 ∨ r.statusCode = 301 then httpsGet net fuel r.location
      else if r.statusCode = 200 then some (.ok r.body)
      else some (.httpError r.statusCode)

/-- A network in which every URL shorter than n characters redirects to a
one-character-longer URL and every other URL answers 200: a linear redirect
chain of length n starting from the empty URL. -/
def chainNet (n : Nat) (u : String) : HttpResp :=
  if u.length < n then ⟨302, u.push 'x', ""⟩ else ⟨200, "", "done"⟩

theorem length_push (u : String) (c : Char) : (u.push c).length = u.length + 1 := by
  obtain ⟨d⟩ := u
  simp [String.push, String.length]

/-- C9 (counterexample): a redirect chain of length one hundred, far beyond
any small fixed depth, is still followed to its terminal 200 response and
succeeds instead of failing with a network error. -/
theorem c9_counterexample :
    httpsGet (chainNet 100) 101 "" = some (.ok "done") := by
  decide

/-- C9 (amended): httpsGet follows 301/302 redirects transparently with no
depth limit at all: for every chain length n, the linear chain of n
redirects is followed to its terminal response whenever the model has fuel
for it, and no error is ever produced on account of redirect depth. -/
theorem c9_redirects_unbounded (n fuel : Nat) (u : String)
    (hlen : u.length ≤ n) (hfuel : n - u.length < fuel) :
    httpsGet (chainNet n) fuel u = some (.ok "done") := by
  induction fuel generalizing u with
  | zero => omega
  | succ fuel ih =>
      by_cases h : u.length < n
      · have hstep : httpsGet (chainNet n) (fuel + 1) u =
            httpsGet (chainNet n) fuel (u.push 'x') := by
          simp [httpsGet, chainNet, h]
        rw [hstep]
        exact ih (u.push 'x') (by rw [length_push]; omega)
          (by rw [length_push]; omega)
      · simp [httpsGet, chainNet, h]

/-- C9 (witness): the amended statement at a concrete chain of three
redirects with fuel five. -/
theorem c9_witness : httpsGet (chainNet 3) 5 "" = some (.ok "done") :=
  c9_redirects_unbounded 3 5 "" (by decide) (by decide)

/-! ## The npm bin wrapper (src/unnamed/part_000)

When the binary file exists next to the wrapper it is spawned with the user
arguments and the wrapper exits with the child exit code. When it does not
exist, the wrapper loads scripts/install.js, whose async main runs
synchronously up to its first await: getPlatform either throws, in which
case the catch handler prints and calls process.exit(1) before control
returns to the wrapper, or succeeds, in which case the version request is
initiated and main suspends; only then does the wrapper reach its own
process.exit(0), terminating the process before any network activity
completes, before any binary is installed and before the user command could
run. The eventual outcome of the suspended installation therefore never
influences the exit code. -/

/-- getPlatform of scripts/install.js (lines 12-46): the OS and CPU
mapping, and the archive extension chosen for the platform. -/
def getPlatformJs (platform arch : String) : Option (String × String × String) :=
  let os :=
    if platform = "darwin" then some "apple-darwin"
    else if platform = "linux" then some "unknown-linux-gnu"
    else if platform = "win32" then some "pc-windows-msvc"
    else none
  let archName :=
    if arch = "x64" then some "x86_64"
    else if arch = "arm64" then some "aarch64"
    else none
  match os, archName with
  | some o, some a => some (o, a, if platform = "win32" then "zip" else "tar.gz")
  | _, _ => none

/-- How the synchronous part of the installer main (install.js lines
111-146) ends: either the process already exited inside the catch handler,
or main suspended at its first await with the download initiated. -/
inductive InstallerSyncOutcome where
  | exitedWith (code : Nat)
  | suspendedAwaitingNetwork
deriving DecidableEq

/-- The synchronous part of the installer main: getPlatform throwing is
caught and leads to process.exit(1); otherwise main suspends at the await
of getLatestVersion. -/
def installerSyncPrelude (platform arch : String) : InstallerSyncOutcome :=
  match getPlatformJs platform arch with
  | none => .exitedWith 1
  | some _ => .suspendedAwaitingNetwork

/-- Observable outcome of one wrapper invocation: the process exit code,
whether the requested user command was spawned, whether the installer was
started, and whether the installation had completed by the time the process
exited. -/
structure WrapperRun where
  exitCode : Nat
  ranUserCommand : Bool
  installerStarted : Bool
  installCompletedBeforeExit : Bool
deriving DecidableEq

/-- The bin wrapper (src/unnamed/part_000): with the binary present the
child is spawned and its exit code mirrored; with the binary absent the
installer is required and the wrapper exits, with the code from the
synchronous installer prelude when that prelude already exited, and with 0
from its own process.exit(0) otherwise. The last parameter is the eventual
outcome of the suspended asynchronous installation; the process has exited
before that outcome exists. -/
def binWrapper (binaryExists : Bool) (platform arch : String) (childExitCode : Nat)
    (_eventualInstallSucceeds : Bool) : WrapperRun :=
  if binaryExists then
    { exitCode := childExitCode, ranUserCommand := true, installerStarted := false,
      installCompletedBeforeExit := false }
  else
    match installerSyncPrelude platform arch with
    | .exitedWith c =>
        { exitCode := c, ranUserCommand := false, installerStarted := true,
          installCompletedBeforeExit := false }
    | .suspendedAwaitingNetwork =>
        { exitCode := 0, ranUserCommand := false, installerStarted := true,
          installCompletedBeforeExit := false }

/-- C10 (counterexample): with the binary absent on a Windows host with a
32-bit CPU, getPlatform throws synchronously inside the required installer,
the catch handler calls process.exit(1), and the wrapper exits with status
1, not 0 - and that status does reflect the failed installation. -/
theorem c10_counterexample :
    (binWrapper false "win32" "ia32" 0 true).exitCode = 1 ∧
    (binWrapper false "win32" "ia32" 0 true).exitCode ≠ 0 := by
  decide

/-- C10 (amended): when the binary is absent and the synchronous platform
detection of the installer succeeds, the wrapper starts the installer and
exits immediately with status 0, without running the user command and
without the installation having completed, and the exit code is independent
of the eventual installation outcome; when platform detection fails
synchronously the process instead exits with status 1 from inside the
installer. -/
theorem c10_wrapper_detached (platform arch : String) (childExitCode : Nat)
    (outcome : Bool)
    (hsupported : (getPlatformJs platform arch).isSome = true) :
    (binWrapper false platform arch childExitCode outcome =
      { exitCode := 0, ranUserCommand := false, installerStarted := true,
        installCompletedBeforeExit := false }) ∧
    (∀ outcome2 : Bool, binWrapper false platform arch childExitCode outcome =
      binWrapper false platform arch childExitCode outcome2) := by
  obtain ⟨pf, hpf⟩ := Option.isSome_iff_exists.mp hsupported
  constructor
  · simp [binWrapper, installerSyncPrelude, hpf]
  · intro o2
    simp [binWrapper, installerSyncPrelude, hpf]

/-- C10 (witness): a Linux x64 host with the binary absent: the wrapper
starts the installer and exits 0 at once, independent of everything else. -/
theorem c10_witness :
    binWrapper false "linux" "x64" 7 true =
      { exitCode := 0, ranUserCommand := false, installerStarted := true,
        installCompletedBeforeExit := false } :=
  (c10_wrapper_detached "linux" "x64" 7 true (by decide)).1

end CentyInstaller
